import Mathlib

/-
Verification of the grpc_python_server_client repository: the server's Start
handler and the client's method dispatch are embedded from the source
(src/app/server.py, src/app/client.py); the lifecycle controller, command
registry and service dispatcher that the specification describes are modelled
from the specification, since their implementation is not among the given
source files (only the generated protocol declarations and the client caller
refer to them).
-/

set_option autoImplicit false

set_option linter.unusedVariables false

/-- Request message of the Start RPC: a single string field `command`
(mirrors `proto_pb2.StartRequest`). -/
structure StartRequest where
  command : String
deriving Repr, DecidableEq

/-- Response message of the Start/Stop RPCs: `status` (int32 in the proto,
always a small non-negative code here) and `message`
(mirrors `proto_pb2.StartResponse`). -/
structure StartResponse where
  status : Nat
  message : String
deriving Repr, DecidableEq

/-- Embedding of `EmiService.Start` from src/app/server.py: the handler body is
`return proto_pb2.StartResponse(status=200, message=f"Starte:{request.command}")`.
The Python method also receives `self` and `context`; the body references
neither, which the embedding mirrors by taking them as unused arguments of
arbitrary type. -/
def EmiService.Start {Self Ctx : Type} (self : Self) (request : StartRequest)
    (context : Ctx) : StartResponse :=
  { status := 200, message := "Starte:" ++ request.command }

/-- Outcome of one run of the client's `main` dispatch: which RPC (if any) it
issues, with the command it carries. -/
inductive RpcCall where
  | startCall (command : String)
  | stopCall (command : String)
  | noCall
deriving Repr, DecidableEq

/-- Embedding of Python's `str.lower()` as used by the client: lowercase the
string character by character (agrees with `String.toLower`; written over the
character list so that it evaluates by kernel reduction). -/
def strLower (s : String) : String :=
  ⟨s.data.map Char.toLower⟩

/-- Embedding of the method dispatch in `main` from src/app/client.py:
`if method.lower() == 'start'` issue Start; `elif method.lower() == 'stop'`
issue Stop; otherwise print "Unknown method" and return without any RPC. -/
def clientDispatch (command method : String) : RpcCall :=
  if strLower method = "start" then RpcCall.startCall command
  else if strLower method = "stop" then RpcCall.stopCall command
  else RpcCall.noCall

/-- Modelled from the spec: lifecycle state of a command, `Stopped` or
`Running` (spec section 3 data model; no implementation exists in the given
source files). -/
inductive CommandState where
  | Stopped
  | Running
deriving Repr, DecidableEq

/-- Modelled from the spec: a Command record with its current lifecycle state
and last-transition timestamp (spec section 3). -/
structure Command where
  state : CommandState
  lastTransition : Nat
deriving Repr, DecidableEq

/-- Modelled from the spec: the Registry, a mapping from command name to
Command, keys unique (spec sections 3 and 4.1), represented as an
association list. -/
abbrev Registry := List (String × Command)

/-- Modelled from the spec: `get(name) -> Command | absent` of the Command
Registry (spec section 4.1); returns the current entry, does not create. -/
def Registry.get (reg : Registry) (name : String) : Option Command :=
  match reg with
  | [] => none
  | e :: rest => if e.1 = name then some e.2 else Registry.get rest name

/-- Modelled from the spec: `upsert(name, state, timestamp)` of the Command
Registry (spec section 4.1); creates or overwrites, never fails. -/
def Registry.upsert (reg : Registry) (name : String) (c : Command) : Registry :=
  match reg with
  | [] => [(name, c)]
  | e :: rest =>
      if e.1 = name then (name, c) :: rest else e :: Registry.upsert rest name c

/-- Modelled from the spec: the state the Lifecycle Controller sees for a
name — unknown commands are implicitly `Stopped` until first started
(spec section 3 invariant and section 4.2). -/
def Registry.effectiveState (reg : Registry) (name : String) : CommandState :=
  match reg.get name with
  | some c => c.state
  | none => CommandState.Stopped

/-- Response produced by the Lifecycle Controller / Dispatcher of the spec:
status code plus message (spec section 3). -/
structure Response where
  status : Nat
  message : String
deriving Repr, DecidableEq

/-- Modelled from the spec: `Start(name)` of the Lifecycle Controller
(spec section 4.2): from `Stopped`, transition to `Running` and answer
status 200 with message "Starte:<name>"; from `Running`, idempotent success
with the same response and no registry mutation. -/
def lcStart (reg : Registry) (name : String) (ts : Nat) : Registry × Response :=
  match reg.effectiveState name with
  | CommandState.Stopped =>
      (reg.upsert name ⟨CommandState.Running, ts⟩, ⟨200, "Starte:" ++ name⟩)
  | CommandState.Running => (reg, ⟨200, "Starte:" ++ name⟩)

/-- Modelled from the spec: `Stop(name)` of the Lifecycle Controller
(spec section 4.2): from `Running`, transition to `Stopped` and answer
status 200 with message "Stopped:<name>"; from `Stopped`, idempotent success
with status 200 and no registry mutation. -/
def lcStop (reg : Registry) (name : String) (ts : Nat) : Registry × Response :=
  match reg.effectiveState name with
  | CommandState.Running =>
      (reg.upsert name ⟨CommandState.Stopped, ts⟩, ⟨200, "Stopped:" ++ name⟩)
  | CommandState.Stopped => (reg, ⟨200, "Stopped:" ++ name⟩)

/-- Modelled from the spec: `HandleStart` of the Service Dispatcher
(spec sections 4.2 and 4.3): an empty command name, or one exceeding the
configured maximum length, is the reserved `InvalidCommand` error, answered
with client-error status 400 and no registry mutation; otherwise delegate to
the Lifecycle Controller. -/
def handleStart (maxLen : Nat) (reg : Registry) (name : String) (ts : Nat) :
    Registry × Response :=
  if name = "" ∨ maxLen < name.length then (reg, ⟨400, "InvalidCommand"⟩)
  else lcStart reg name ts

/-- Modelled from the spec: `HandleStop` of the Service Dispatcher, symmetric
to `HandleStart` (spec section 4.3). -/
def handleStop (maxLen : Nat) (reg : Registry) (name : String) (ts : Nat) :
    Registry × Response :=
  if name = "" ∨ maxLen < name.length then (reg, ⟨400, "InvalidCommand"⟩)
  else lcStop reg name ts

/-- Modelled from the spec: the operation-name boundary of the Service
Dispatcher (spec section 4.3): anything other than start/stop is rejected
with a descriptive structured error, status 400, and no mutation. -/
def dispatch (maxLen : Nat) (reg : Registry) (method name : String) (ts : Nat) :
    Registry × Response :=
  if method = "start" then handleStart maxLen reg name ts
  else if method = "stop" then handleStop maxLen reg name ts
  else (reg, ⟨400, "Unknown method: " ++ method ++ ". Use start or stop"⟩)

/-- Modelled from the spec: a serialized execution of several Start calls on
the same name. The spec's concurrency policy (section 5) makes every registry
mutation a single atomic step under a mutual-exclusion lock, so any concurrent
execution of Start calls is equivalent to running them in some sequential
order; the list carries the timestamp each call would record. -/
def runStarts (reg : Registry) (name : String) (tss : List Nat) : Registry :=
  tss.foldl (fun r ts => (lcStart r name ts).1) reg

/- ------------------------------------------------------------------ -/
/- Helper lemmas about the modelled registry and controller.           -/
/- ------------------------------------------------------------------ -/

theorem Registry.get_upsert_self (reg : Registry) (name : String) (c : Command) :
    (reg.upsert name c).get name = some c := by
  induction reg with
  | nil => simp [Registry.upsert, Registry.get]
  | cons e rest ih =>
      by_cases hk : e.1 = name
      · simp [Registry.upsert, Registry.get, hk]
      · simp [Registry.upsert, Registry.get, hk, ih]

theorem Registry.effectiveState_upsert_self (reg : Registry) (name : String)
    (c : Command) : (reg.upsert name c).effectiveState name = c.state := by
  simp [Registry.effectiveState, Registry.get_upsert_self]

theorem lcStart_sets_running (reg : Registry) (name : String) (ts : Nat) :
    ((lcStart reg name ts).1).effectiveState name = CommandState.Running := by
  cases h : reg.effectiveState name with
  | Stopped => simp [lcStart, h, Registry.effectiveState_upsert_self]
  | Running => simp [lcStart, h]

theorem lcStart_of_running (reg : Registry) (name : String) (ts : Nat)
    (h : reg.effectiveState name = CommandState.Running) :
    lcStart reg name ts = (reg, ⟨200, "Starte:" ++ name⟩) := by
  simp [lcStart, h]

theorem lcStart_response (reg : Registry) (name : String) (ts : Nat) :
    (lcStart reg name ts).2 = ⟨200, "Starte:" ++ name⟩ := by
  cases h : reg.effectiveState name <;> simp [lcStart, h]

theorem runStarts_of_running (tss : List Nat) (reg : Registry) (name : String)
    (h : reg.effectiveState name = CommandState.Running) :
    (runStarts reg name tss).effectiveState name = CommandState.Running := by
  induction tss generalizing reg with
  | nil => simp only [runStarts, List.foldl_nil]; exact h
  | cons t rest ih =>
      have hstep : (lcStart reg name t).1 = reg := by
        rw [lcStart_of_running reg name t h]
      simp only [runStarts, List.foldl_cons] at *
      rw [hstep]
      exact ih reg h

/- ------------------------------------------------------------------ -/
/- Claims.                                                             -/
/- ------------------------------------------------------------------ -/

/-- C1: For every command name n, the Start handler returns a response with
status 200 and message exactly "Starte:" followed by n (so in particular
Start("RUN2") yields status 200 and message "Starte:RUN2"), for any server
instance and call context. -/
theorem C1_start_echoes_command {Self Ctx : Type} (self : Self) (ctx : Ctx)
    (n : String) :
    EmiService.Start self ⟨n⟩ ctx = ⟨200, "Starte:" ++ n⟩ := rfl

/-- C2 counterexample: calling Start with the empty command name returns
status 200, not 400 — the handler performs no validation at all. -/
theorem C2_start_empty_counterexample :
    (EmiService.Start () ⟨""⟩ ()).status = 200 ∧
    ¬ (EmiService.Start () ⟨""⟩ ()).status = 400 := by decide

/-- C2 (amended): calling Start with an empty command name returns status 200
with message "Starte:"; the handler performs no validation, raises no
InvalidCommand error, and there is no registry it could alter. -/
theorem C2_start_empty_amended {Self Ctx : Type} (self : Self) (ctx : Ctx) :
    EmiService.Start self ⟨""⟩ ctx = ⟨200, "Starte:"⟩ := by
  simp [EmiService.Start]

/-- C3: For every command name n, registry and timestamp, Stop answers
status 200; if the command is Running it transitions to Stopped with message
exactly "Stopped:" followed by n; if it is already Stopped the call is an
idempotent success with status 200 and an unchanged registry. -/
theorem C3_stop_semantics (reg : Registry) (n : String) (ts : Nat) :
    (lcStop reg n ts).2.status = 200 ∧
    (reg.effectiveState n = CommandState.Running →
      ((lcStop reg n ts).1).effectiveState n = CommandState.Stopped ∧
      (lcStop reg n ts).2.message = "Stopped:" ++ n) ∧
    (reg.effectiveState n = CommandState.Stopped →
      (lcStop reg n ts).1 = reg ∧ (lcStop reg n ts).2.status = 200) := by
  refine ⟨?_, fun h => ?_, fun h => ?_⟩
  · cases h : reg.effectiveState n <;> simp [lcStop, h]
  · simp [lcStop, h, Registry.effectiveState_upsert_self]
  · simp [lcStop, h]

/-- C3 witness: concrete instances — stopping the running command "RUN2"
transitions it to Stopped with message "Stopped:RUN2", and stopping it in an
empty registry is an idempotent success with status 200. -/
theorem C3_stop_semantics_witness :
    (((lcStop [("RUN2", ⟨CommandState.Running, 0⟩)] "RUN2" 1).1).effectiveState
        "RUN2" = CommandState.Stopped ∧
      (lcStop [("RUN2", ⟨CommandState.Running, 0⟩)] "RUN2" 1).2.message =
        "Stopped:" ++ "RUN2") ∧
    ((lcStop [] "RUN2" 1).1 = [] ∧ (lcStop [] "RUN2" 1).2.status = 200) :=
  ⟨(C3_stop_semantics [("RUN2", ⟨CommandState.Running, 0⟩)] "RUN2" 1).2.1
      (by decide),
   (C3_stop_semantics [] "RUN2" 1).2.2 (by decide)⟩

/-- C4: Start is idempotent — for every command name n, any starting registry
and any timestamps, after Start(n) the state is Running, after a second
Start(n) it is still Running, both calls return the same response with
status 200, and the second call mutates nothing (the registry after the
second call equals the registry after the first). -/
theorem C4_start_idempotent (reg : Registry) (n : String) (ts1 ts2 : Nat) :
    ((lcStart reg n ts1).1).effectiveState n = CommandState.Running ∧
    ((lcStart (lcStart reg n ts1).1 n ts2).1).effectiveState n =
      CommandState.Running ∧
    (lcStart (lcStart reg n ts1).1 n ts2).2 = (lcStart reg n ts1).2 ∧
    (lcStart reg n ts1).2.status = 200 ∧
    (lcStart (lcStart reg n ts1).1 n ts2).1 = (lcStart reg n ts1).1 := by
  have h1 := lcStart_sets_running reg n ts1
  have h2 := lcStart_of_running (lcStart reg n ts1).1 n ts2 h1
  refine ⟨h1, ?_, ?_, ?_, ?_⟩
  · rw [h2]; exact h1
  · rw [h2, lcStart_response]
  · rw [lcStart_response]
  · rw [h2]

/-- C5: For every command name n, starting from any registry state, Start(n)
followed by Stop(n) leaves the command's state Stopped. -/
theorem C5_start_then_stop (reg : Registry) (n : String) (ts1 ts2 : Nat) :
    ((lcStop (lcStart reg n ts1).1 n ts2).1).effectiveState n =
      CommandState.Stopped := by
  have h1 := lcStart_sets_running reg n ts1
  simp [lcStop, h1, Registry.effectiveState_upsert_self]

/-- C6: No Start or Stop operation fails solely because the command name has
never been seen: a name absent from the registry is treated as Stopped before
the call, and both operations answer status 200 on it. -/
theorem C6_unknown_name_ok (reg : Registry) (n : String) (ts : Nat)
    (h : reg.get n = none) :
    reg.effectiveState n = CommandState.Stopped ∧
    (lcStart reg n ts).2.status = 200 ∧
    (lcStop reg n ts).2.status = 200 := by
  have hs : reg.effectiveState n = CommandState.Stopped := by
    simp [Registry.effectiveState, h]
  exact ⟨hs, by simp [lcStart, hs], by simp [lcStop, hs]⟩

/-- C6 witness: the never-seen name "NEW" in the empty registry is treated as
Stopped and both Start and Stop answer status 200 on it. -/
theorem C6_unknown_name_ok_witness :
    Registry.effectiveState [] "NEW" = CommandState.Stopped ∧
    (lcStart [] "NEW" 0).2.status = 200 ∧
    (lcStop [] "NEW" 0).2.status = 200 :=
  C6_unknown_name_ok [] "NEW" 0 rfl

/-- C7: every operation name other than "start" and "stop" is rejected at the
dispatch boundary with status 400 and causes no registry mutation. -/
theorem C7_unknown_op_rejected (maxLen : Nat) (reg : Registry) (m n : String)
    (ts : Nat) (h1 : m ≠ "start") (h2 : m ≠ "stop") :
    (dispatch maxLen reg m n ts).1 = reg ∧
    (dispatch maxLen reg m n ts).2.status = 400 := by
  simp [dispatch, h1, h2]

/-- C7 witness: the operation name "pause" yields status 400 and leaves the
registry unchanged. -/
theorem C7_unknown_op_rejected_witness :
    (dispatch 64 [] "pause" "RUN2" 0).1 = [] ∧
    (dispatch 64 [] "pause" "RUN2" 0).2.status = 400 :=
  C7_unknown_op_rejected 64 [] "pause" "RUN2" 0 (by decide) (by decide)

/-- C8: under the spec's locking policy every registry mutation is one atomic
step, so N concurrent Start(n) calls execute as some serialization of N
Start(n) operations; for every such serialization (any N ≥ 1, any timestamps,
any initial registry) the final state of n is exactly Running — no lost
update, and every call is a total function, so none crashes. -/
theorem C8_concurrent_starts (reg : Registry) (n : String) (tss : List Nat)
    (h : tss ≠ []) :
    (runStarts reg n tss).effectiveState n = CommandState.Running := by
  cases tss with
  | nil => exact absurd rfl h
  | cons t rest =>
      exact runStarts_of_running rest (lcStart reg n t).1 n
        (lcStart_sets_running reg n t)

/-- C8 witness: three serialized Start("RUN") calls on the empty registry end
with "RUN" in state Running. -/
theorem C8_concurrent_starts_witness :
    (runStarts [] "RUN" [0, 1, 2]).effectiveState "RUN" =
      CommandState.Running :=
  C8_concurrent_starts [] "RUN" [0, 1, 2] (by decide)

/-- C9: the server's Start handler is deterministic and stateless — for any
two invocations whose requests carry the same command string, the responses
are identical, whatever the server instance or call context of each. -/
theorem C9_start_stateless {S1 S2 T1 T2 : Type} (s1 : S1) (s2 : S2)
    (c1 : T1) (c2 : T2) (r1 r2 : StartRequest)
    (h : r1.command = r2.command) :
    EmiService.Start s1 r1 c1 = EmiService.Start s2 r2 c2 := by
  simp [EmiService.Start, h]

/-- C9 witness: two Start invocations carrying "RUN2", against different
server-state and context values (even of different types), answer
identically. -/
theorem C9_start_stateless_witness :
    EmiService.Start () ⟨"RUN2"⟩ () = EmiService.Start 7 ⟨"RUN2"⟩ true :=
  C9_start_stateless () 7 () true ⟨"RUN2"⟩ ⟨"RUN2"⟩ rfl

/-- C10: the client's operation-name dispatch is case-insensitive — a method
string lowercasing to "start" issues the Start RPC, one lowercasing to "stop"
issues the Stop RPC, and any other method string issues no RPC at all. -/
theorem C10_client_dispatch_case_insensitive (method command : String) :
    (strLower method = "start" →
      clientDispatch command method = RpcCall.startCall command) ∧
    (strLower method = "stop" →
      clientDispatch command method = RpcCall.stopCall command) ∧
    (strLower method ≠ "start" → strLower method ≠ "stop" →
      clientDispatch command method = RpcCall.noCall) := by
  refine ⟨fun h => ?_, fun h => ?_, fun h1 h2 => ?_⟩
  · unfold clientDispatch
    rw [if_pos h]
  · have hne : strLower method ≠ "start" := by rw [h]; decide
    unfold clientDispatch
    rw [if_neg hne, if_pos h]
  · unfold clientDispatch
    rw [if_neg h1, if_neg h2]

/-- C10 witness: "START" issues the Start RPC, "Stop" issues the Stop RPC,
and "pause" issues no RPC. -/
theorem C10_client_dispatch_witness :
    clientDispatch "RUN2" "START" = RpcCall.startCall "RUN2" ∧
    clientDispatch "RUN2" "Stop" = RpcCall.stopCall "RUN2" ∧
    clientDispatch "RUN2" "pause" = RpcCall.noCall :=
  ⟨(C10_client_dispatch_case_insensitive "START" "RUN2").1 (by decide),
   (C10_client_dispatch_case_insensitive "Stop" "RUN2").2.1 (by decide),
   (C10_client_dispatch_case_insensitive "pause" "RUN2").2.2 (by decide)
     (by decide)⟩
